import Mathlib

/-!
# LoginBridge: verification of the authentication handoff state machine

A shallow embedding of the browser bridge application
(`src/app/src/types.ts` App component, `src/app/src/services/BridgeService.ts`,
`src/app/src/utils/deeplink.ts`, and the shared types file), together with
proofs of the spec's testable properties.

JavaScript strings that may be `null`/`undefined` are modelled as
`Option String`; JavaScript truthiness of such a value (`!x`) is the
`truthyOpt` predicate below (absent and empty string are falsy).
Thrown exceptions are modelled with `Except String`.
-/

namespace LoginBridge

/-- JS truthiness of a `string | null | undefined` value:
absent and the empty string are falsy. -/
def truthyOpt : Option String → Bool
  | none => false
  | some s => !s.isEmpty

/-- Bridge state machine states, from the shared types file (`BridgeStatus`). -/
inductive BridgeStatus where
  | idle              -- Waiting for parameters or user action
  | initializing      -- Loading Google Identity Services
  | ready             -- Ready to show login button
  | authenticating    -- Google sign-in in progress
  | exchanging        -- Exchanging Google token for Azure session
  | hydrating         -- Calling bridge API for salt/address
  | ejecting          -- Redirecting to Obsidian
  | success           -- Complete, showing manual link
  | error             -- Error state
deriving DecidableEq, Repr

/-- Position of a status in the declared forward order of the machine. -/
def BridgeStatus.idx : BridgeStatus → Nat
  | .idle => 0
  | .initializing => 1
  | .ready => 2
  | .authenticating => 3
  | .exchanging => 4
  | .hydrating => 5
  | .ejecting => 6
  | .success => 7
  | .error => 8

/-- Complete authentication data returned to Obsidian (`AuthenticationResult`). -/
structure AuthenticationResult where
  jwt : String
  azureToken : String
  salt : String
  address : String
deriving DecidableEq, Repr

/-- Bridge component state (`BridgeState`); `data` is only ever set to a
complete `AuthenticationResult` by the app, so it is modelled as an `Option`. -/
structure BridgeState where
  status : BridgeStatus
  message : String
  error : Option String := none
  data : Option AuthenticationResult := none
deriving DecidableEq, Repr

/-- Parameters received from Obsidian via URL (`ObsidianParams`), as produced
by `parseObsidianParams` (the `source` field is implied by a successful parse). -/
structure ObsidianParams where
  nonce : String
  redirect : Bool
  prompt : Option String
deriving DecidableEq, Repr

/-- A query string, modelled as the ordered list of its key/value pairs. -/
abbrev Params := List (String × String)

/-- `URLSearchParams.get`: value of the first pair with the given key,
or null when the key is absent. -/
def getParam (ps : Params) (key : String) : Option String :=
  (ps.find? (fun p => p.1 == key)).map (·.2)

/-- `parseObsidianParams` from `src/app/src/utils/deeplink.ts`:
validates `source === 'obsidian'` and a truthy `nonce`, returns null
otherwise; `redirect` is `get('redirect') === 'true'`;
`prompt` is `get('prompt') || undefined`. -/
def parseObsidianParams (searchParams : Params) : Option ObsidianParams :=
  let source := getParam searchParams "source"
  let nonce := getParam searchParams "nonce"
  if source ≠ some "obsidian" then
    none
  else if !truthyOpt nonce then
    none
  else
    some
      { nonce := nonce.getD ""
        redirect := getParam searchParams "redirect" == some "true"
        prompt :=
          match getParam searchParams "prompt" with
          | some p => if p.isEmpty then none else some p
          | none => none }

/-- Response observed by `exchangeGoogleTokenForAzureSession`: HTTP status
information plus the parsed `EasyAuthLoginResponse` body
(`authenticationToken` may be absent in the JSON). -/
structure ExchangeResponse where
  ok : Bool
  status : Nat
  statusText : String
  bodyText : String
  authenticationToken : Option String
deriving Repr

/-- Parsed `BridgeApiResponse` body (`success`, optional `address`, `salt`,
`message`). -/
structure BridgeApiResponse where
  success : Bool
  address : Option String
  salt : Option String
  message : Option String
deriving Repr

/-- Response observed by `hydrateUserData`: HTTP status information, the
error-path content type and bodies, and the parsed success body. -/
structure HydrationResponse where
  ok : Bool
  status : Nat
  contentTypeJson : Bool
  errorMessage : Option String
  errorText : String
  body : BridgeApiResponse
deriving Repr

/-- `BridgeService.exchangeGoogleTokenForAzureSession`, as a function of the
HTTP response it observes: non-ok status throws carrying the status code and
status text; an ok response with a falsy `authenticationToken` throws; an ok
response with a truthy token returns it. -/
def exchangeGoogleTokenForAzureSession (response : ExchangeResponse) :
    Except String String :=
  if !response.ok then
    .error ("Azure Easy Auth login failed: HTTP " ++ Nat.repr response.status
      ++ " - " ++ response.statusText)
  else if !truthyOpt response.authenticationToken then
    .error "No authenticationToken in Azure Easy Auth response"
  else
    .ok (response.authenticationToken.getD "")

/-- The salt/address pair returned by `hydrateUserData` (the spec's
`DerivedIdentity`). -/
structure DerivedIdentity where
  salt : String
  address : String
deriving DecidableEq, Repr

/-- `BridgeService.hydrateUserData`, as a function of the HTTP response it
observes: non-ok status throws a message built from the error body; an ok
response whose body has a falsy `success`, `address` or `salt` throws; an ok
response with all three truthy returns the salt and address. -/
def hydrateUserData (response : HydrationResponse) :
    Except String DerivedIdentity :=
  if !response.ok then
    let baseMessage := "HTTP " ++ Nat.repr response.status
    if response.contentTypeJson then
      .error ((response.errorMessage.filter (fun m => !m.isEmpty)).getD baseMessage)
    else
      .error (baseMessage ++ ": " ++ response.errorText.take 200)
  else if !response.body.success || !truthyOpt response.body.address
      || !truthyOpt response.body.salt then
    .error ((response.body.message.filter (fun m => !m.isEmpty)).getD
      "Invalid response from bridge service")
  else
    .ok { address := response.body.address.getD ""
          salt := response.body.salt.getD "" }

/-- The backend as seen by one flow: the response to the session-exchange
POST for a given `id_token`, and the response to the hydration POST for a
given `idToken` and session token. -/
structure Backend where
  exchangeResp : String → ExchangeResponse
  hydrateResp : String → String → HydrationResponse

/-- One backend RPC issued by the service, with its arguments. -/
inductive BackendCall where
  | exchange (idToken : String)
  | hydrate (idToken : String) (sessionToken : String)
deriving DecidableEq, Repr

/-- `BridgeService.completeAuthentication`: exchange the Google token for an
Azure session token, then hydrate with both tokens; also records the backend
calls it issued, in order. -/
def completeAuthentication (b : Backend) (googleIdToken : String) :
    Except String AuthenticationResult × List BackendCall :=
  match exchangeGoogleTokenForAzureSession (b.exchangeResp googleIdToken) with
  | .error e => (.error e, [.exchange googleIdToken])
  | .ok azureToken =>
    match hydrateUserData (b.hydrateResp googleIdToken azureToken) with
    | .error e =>
      (.error e, [.exchange googleIdToken, .hydrate googleIdToken azureToken])
    | .ok d =>
      (.ok { jwt := googleIdToken, azureToken := azureToken
             salt := d.salt, address := d.address },
       [.exchange googleIdToken, .hydrate googleIdToken azureToken])

/-- Google credential response from Identity Services
(`GoogleCredentialResponse`); `credential` is modelled as optional since the
app guards against its absence. -/
structure GoogleCredentialResponse where
  credential : Option String
  select_by : String := ""
deriving Repr

/-- `handleGoogleCredential` from the App component: a falsy credential sets
the error state; otherwise the state is set to `exchanging`,
`completeAuthentication` runs, and on success the state is set to `ejecting`
with the full result, followed (after the fixed delay) by `success` keeping
the same data; on failure the error state is set. Returns the sequence of
states set, in order, together with the backend calls issued. -/
def handleGoogleCredential (b : Backend) (response : GoogleCredentialResponse) :
    List BridgeState × List BackendCall :=
  if !truthyOpt response.credential then
    ([{ status := .error
        message := "Authentication failed"
        error := some "No credential received from Google" }], [])
  else
    let exchangingState : BridgeState :=
      { status := .exchanging
        message := "Exchanging credentials with Azure..." }
    match completeAuthentication b (response.credential.getD "") with
    | (.ok authResult, calls) =>
      ([exchangingState,
        { status := .ejecting
          message := "Authentication successful. Opening Obsidian..."
          data := some authResult },
        { status := .success
          message := "If Obsidian did not open, click the button below."
          data := some authResult }], calls)
    | (.error e, calls) =>
      ([exchangingState,
        { status := .error
          message := "Authentication failed"
          error := some e }], calls)

/-- Whether and how the Google sign-in callback fires during a flow. -/
inductive CredEvent where
  | noCallback
  | callback (response : GoogleCredentialResponse)

/-- The external inputs of one page-load flow: whether `validateConfig`
succeeds, the launch query string, whether the Google script load succeeds,
the credential callback event, and the backend responses. -/
structure FlowInput where
  configOk : Bool
  query : Params
  scriptLoadOk : Bool
  cred : CredEvent
  backend : Backend

/-- The observable outcome of one flow: the states set by `setState`, in
order; the backend calls issued; and the nonce passed as first argument to
`googleAuthService.initialize`, when `initialize` was reached. -/
structure FlowResult where
  states : List BridgeState
  calls : List BackendCall
  initNonce : Option String
deriving Repr

/-- `initializeGoogleSignIn` from the App component: sets `initializing`,
loads the script (failure goes to the error state), calls
`googleAuthService.initialize(nonce, handleGoogleCredential)` with the nonce
it was given, and sets `ready`. -/
def initializeGoogleSignIn (inp : FlowInput) (nonce : String) : FlowResult :=
  let initializingState : BridgeState :=
    { status := .initializing, message := "Loading Google Sign-In..." }
  if !inp.scriptLoadOk then
    { states :=
        [initializingState,
         { status := .error
           message := "Failed to initialize authentication"
           error := some "script load failed" }]
      calls := []
      initNonce := none }
  else
    let readyState : BridgeState :=
      { status := .ready
        message := "Click the button below to sign in with Google" }
    match inp.cred with
    | .noCallback =>
      { states := [initializingState, readyState], calls := [], initNonce := some nonce }
    | .callback response =>
      let (credStates, calls) := handleGoogleCredential inp.backend response
      { states := [initializingState, readyState] ++ credStates
        calls := calls
        initNonce := some nonce }

/-- The `init` effect of the App component: validate the configuration
(failure goes to the error state), parse the launch query, and either start
`initializeGoogleSignIn` with the parsed nonce or set the idle state. -/
def init (inp : FlowInput) : FlowResult :=
  if !inp.configOk then
    { states :=
        [{ status := .error
           message := "Initialization failed"
           error := some "configuration invalid" }]
      calls := []
      initNonce := none }
  else
    match parseObsidianParams inp.query with
    | some obsidianParams => initializeGoogleSignIn inp obsidianParams.nonce
    | none =>
      { states :=
          [{ status := .idle
             message := "This page bridges authentication for Obsidian. Please initiate login from the Obsidian plugin." }]
        calls := []
        initNonce := none }

/-- The initial `useState` value of the App component. -/
def initialState : BridgeState :=
  { status := .idle, message := "Initializing Bridge..." }

/-- The full sequence of UI states of one flow, starting from the initial
state. -/
def fullTrace (inp : FlowInput) : List BridgeState :=
  initialState :: (init inp).states

/-- The status sequence of one flow. -/
def statusTrace (inp : FlowInput) : List BridgeStatus :=
  (fullTrace inp).map (·.status)

/-! ## DeeplinkCodec

`buildDeeplink` serializes the `AuthenticationResult` with `URLSearchParams`,
whose `toString` is the WHATWG `application/x-www-form-urlencoded` serializer:
every value is rendered as its UTF-8 bytes, with ASCII alphanumerics and
`*`, `-`, `.`, `_` kept verbatim, space rendered as `+`, and every other
byte rendered as an uppercase `%XX` escape. We model the byte level with
`Nat` (each byte `< 256`, each code point `< 0x110000`). -/

/-- UTF-8 encoding of one Unicode code point, as its list of bytes. -/
def utf8EncodeCp (c : Nat) : List Nat :=
  if c < 128 then [c]
  else if c < 2048 then [192 + c / 64, 128 + c % 64]
  else if c < 65536 then [224 + c / 4096, 128 + (c / 64) % 64, 128 + c % 64]
  else [240 + c / 262144, 128 + (c / 4096) % 64, 128 + (c / 64) % 64, 128 + c % 64]

/-- The UTF-8 bytes of a string. -/
def stringUtf8Bytes (s : String) : List Nat :=
  (s.data.map (fun ch => utf8EncodeCp ch.toNat)).flatten

/-- UTF-8 decoding of a byte list into code points, one byte at a time;
the state is `none` when expecting a lead byte and `some (cp, k, minCp)`
when `k` continuation bytes of a partially decoded code point `cp` remain
(`minCp` rules out overlong encodings). `none` overall on any ill-formed
sequence. -/
def utf8DecodeLoop : List Nat → Option (Nat × Nat × Nat) → Option (List Nat)
  | [], none => some []
  | [], some _ => none
  | b :: rest, none =>
    if b < 128 then (utf8DecodeLoop rest none).map (b :: ·)
    else if b < 194 then none
    else if b < 224 then utf8DecodeLoop rest (some (b - 192, 1, 128))
    else if b < 240 then utf8DecodeLoop rest (some (b - 224, 2, 2048))
    else if b < 245 then utf8DecodeLoop rest (some (b - 240, 3, 65536))
    else none
  | b :: rest, some (cp, k, minCp) =>
    if 128 ≤ b ∧ b < 192 then
      if k = 1 then
        if minCp ≤ cp * 64 + (b - 128) ∧ cp * 64 + (b - 128) < 1114112 then
          (utf8DecodeLoop rest none).map ((cp * 64 + (b - 128)) :: ·)
        else none
      else utf8DecodeLoop rest (some (cp * 64 + (b - 128), k - 1, minCp))
    else none

/-- UTF-8 decoding of a byte list into code points. -/
def utf8Decode (l : List Nat) : Option (List Nat) :=
  utf8DecodeLoop l none

/-- Uppercase hexadecimal digit for a value below 16. -/
def hexDigitChar (n : Nat) : Char :=
  if n < 10 then Char.ofNat (48 + n) else Char.ofNat (55 + n)

/-- Bytes kept verbatim by the `application/x-www-form-urlencoded`
serializer: ASCII alphanumerics and `*`, `-`, `.`, `_`. -/
def isUrlencodedUnreserved (b : Nat) : Bool :=
  (48 ≤ b && b ≤ 57) || (65 ≤ b && b ≤ 90) || (97 ≤ b && b ≤ 122)
    || b == 42 || b == 45 || b == 46 || b == 95

/-- Serialization of one byte by the form-urlencoded serializer. -/
def formUrlEncodeByte (b : Nat) : List Char :=
  if b = 32 then ['+']
  else if isUrlencodedUnreserved b then [Char.ofNat b]
  else ['%', hexDigitChar (b / 16), hexDigitChar (b % 16)]

/-- `URLSearchParams` serialization of one value: form-urlencoded encoding of
its UTF-8 bytes. -/
def formUrlEncode (s : String) : String :=
  String.mk (((stringUtf8Bytes s).map formUrlEncodeByte).flatten)

/-- Numeric value of a hexadecimal digit character (either case), or `none`. -/
def hexVal? (c : Char) : Option Nat :=
  if 48 ≤ c.toNat ∧ c.toNat ≤ 57 then some (c.toNat - 48)
  else if 65 ≤ c.toNat ∧ c.toNat ≤ 70 then some (c.toNat - 55)
  else if 97 ≤ c.toNat ∧ c.toNat ≤ 102 then some (c.toNat - 87)
  else none

/-- Percent-decoding of a form-urlencoded value into its bytes: `+` is a
space, `%XX` a hex escape (`none` on a malformed escape), any other character
stands for itself. -/
def percentDecodeBytes : List Char → Option (List Nat)
  | [] => some []
  | c :: rest =>
    if c = '+' then
      (percentDecodeBytes rest).map (32 :: ·)
    else if c = '%' then
      match rest with
      | h1 :: h2 :: rest2 =>
        match hexVal? h1, hexVal? h2 with
        | some x1, some x2 => (percentDecodeBytes rest2).map ((x1 * 16 + x2) :: ·)
        | _, _ => none
      | _ => none
    else
      (percentDecodeBytes rest).map (c.toNat :: ·)

/-- Rebuild a string from decoded code points; `none` if any code point is
not a Unicode scalar value. -/
def stringOfCodepoints? : List Nat → Option String
  | [] => some ""
  | n :: rest =>
    if n.isValidChar then
      (stringOfCodepoints? rest).map (fun s => String.mk (Char.ofNat n :: s.data))
    else none

/-- Percent-decoding of one query-field value: decode the escapes to bytes,
then UTF-8-decode the bytes. -/
def percentDecode (t : String) : Option String :=
  (percentDecodeBytes t.data).bind (fun bytes =>
    (utf8Decode bytes).bind stringOfCodepoints?)

/-- Fixed deeplink scheme from the runtime configuration
(`deeplinkProtocol: 'obsidian'`). -/
def deeplinkProtocol : String := "obsidian"

/-- Fixed deeplink callback path from the runtime configuration
(`deeplinkCallback: 'enoki-auth'`). -/
def deeplinkCallback : String := "enoki-auth"

/-- `URLSearchParams.toString()` over an ordered list of key/value pairs. -/
def urlSearchParamsToString : Params → String
  | [] => ""
  | [p] => formUrlEncode p.1 ++ "=" ++ formUrlEncode p.2
  | p :: ps =>
    formUrlEncode p.1 ++ "=" ++ formUrlEncode p.2 ++ "&"
      ++ urlSearchParamsToString ps

/-- `buildDeeplink` from `src/app/src/utils/deeplink.ts`. -/
def buildDeeplink (data : AuthenticationResult) : String :=
  let params := urlSearchParamsToString
    [("jwt", data.jwt), ("azure_token", data.azureToken),
     ("salt", data.salt), ("address", data.address)]
  deeplinkProtocol ++ "://" ++ deeplinkCallback ++ "?" ++ params

/-! ## Round-trip lemmas for the codec -/

theorem char_toNat_ofNat_of_valid {n : Nat} (h : n.isValidChar) :
    (Char.ofNat n).toNat = n := by
  unfold Char.ofNat
  rw [dif_pos h]
  rfl

theorem char_toNat_lt (c : Char) : c.toNat < 1114112 := by
  rcases c.valid with h | ⟨_, h⟩
  · exact Nat.lt_trans h (by norm_num)
  · exact h

theorem utf8EncodeCp_lt_256 {c : Nat} (hc : c < 1114112) :
    ∀ b ∈ utf8EncodeCp c, b < 256 := by
  intro b hb
  unfold utf8EncodeCp at hb
  split at hb
  · simp at hb
    omega
  · split at hb
    · simp at hb
      rcases hb with h | h <;> omega
    · split at hb
      · simp at hb
        rcases hb with h | h | h <;> omega
      · simp at hb
        rcases hb with h | h | h | h <;> omega

theorem hexVal_hexDigitChar {x : Nat} (hx : x < 16) :
    hexVal? (hexDigitChar x) = some x := by
  by_cases h10 : x < 10
  · have ht : (hexDigitChar x).toNat = 48 + x := by
      unfold hexDigitChar
      rw [if_pos h10]
      exact char_toNat_ofNat_of_valid (Or.inl (by omega))
    unfold hexVal?
    rw [ht, if_pos (by omega)]
    congr 1
    omega
  · have ht : (hexDigitChar x).toNat = 55 + x := by
      unfold hexDigitChar
      rw [if_neg h10]
      exact char_toNat_ofNat_of_valid (Or.inl (by omega))
    unfold hexVal?
    rw [ht, if_neg (by omega), if_pos (by omega)]
    congr 1
    omega

theorem percentDecodeBytes_cons_eq (c : Char) (rest : List Char) :
    percentDecodeBytes (c :: rest)
      = if c = '+' then
          (percentDecodeBytes rest).map (32 :: ·)
        else if c = '%' then
          match rest with
          | h1 :: h2 :: rest2 =>
            match hexVal? h1, hexVal? h2 with
            | some x1, some x2 =>
              (percentDecodeBytes rest2).map ((x1 * 16 + x2) :: ·)
            | _, _ => none
          | _ => none
        else
          (percentDecodeBytes rest).map (c.toNat :: ·) := by
  rw [percentDecodeBytes.eq_def]

theorem percentDecodeBytes_encodeByte {b : Nat} (hb : b < 256) (cs : List Char) :
    percentDecodeBytes (formUrlEncodeByte b ++ cs)
      = (percentDecodeBytes cs).map (b :: ·) := by
  by_cases h32 : b = 32
  · subst h32
    rw [formUrlEncodeByte, if_pos rfl]
    rw [List.cons_append, List.nil_append, percentDecodeBytes_cons_eq, if_pos rfl]
  · by_cases hunres : isUrlencodedUnreserved b
    · have hne43 : b ≠ 43 := by
        simp [isUrlencodedUnreserved] at hunres
        omega
      have hne37 : b ≠ 37 := by
        simp [isUrlencodedUnreserved] at hunres
        omega
      have hlt : b < 123 := by
        simp [isUrlencodedUnreserved] at hunres
        omega
      have hvalid : b.isValidChar := Or.inl (by omega)
      have htn : (Char.ofNat b).toNat = b := char_toNat_ofNat_of_valid hvalid
      have hne1 : Char.ofNat b ≠ '+' := by
        intro he
        exact hne43 (by rw [← htn, he]; rfl)
      have hne2 : Char.ofNat b ≠ '%' := by
        intro he
        exact hne37 (by rw [← htn, he]; rfl)
      rw [formUrlEncodeByte, if_neg h32, if_pos hunres]
      rw [List.cons_append, List.nil_append, percentDecodeBytes_cons_eq,
        if_neg hne1, if_neg hne2, htn]
    · have h16a : b / 16 < 16 := by omega
      have h16b : b % 16 < 16 := by omega
      rw [formUrlEncodeByte, if_neg h32, if_neg hunres]
      simp only [List.cons_append, List.nil_append]
      rw [percentDecodeBytes_cons_eq, if_neg (by decide : ¬('%' = '+')),
        if_pos rfl]
      simp only [hexVal_hexDigitChar h16a, hexVal_hexDigitChar h16b]
      rw [show b / 16 * 16 + b % 16 = b from by omega]

theorem percentDecodeBytes_encodeBytes {bs : List Nat} (cs : List Char)
    (h : ∀ b ∈ bs, b < 256) :
    percentDecodeBytes ((bs.map formUrlEncodeByte).flatten ++ cs)
      = (percentDecodeBytes cs).map (bs ++ ·) := by
  induction bs with
  | nil =>
    simp only [List.map_nil, List.flatten_nil, List.nil_append]
    cases percentDecodeBytes cs <;> rfl
  | cons b bs ih =>
    simp only [List.map_cons, List.flatten_cons, List.append_assoc]
    rw [percentDecodeBytes_encodeByte (h b (by simp)),
      ih (fun x hx => h x (by simp [hx]))]
    cases percentDecodeBytes cs <;> rfl

theorem utf8Decode_encodeCp {c : Nat} (hc : c < 1114112) (rest : List Nat) :
    utf8Decode (utf8EncodeCp c ++ rest) = (utf8Decode rest).map (c :: ·) := by
  unfold utf8Decode
  by_cases h1 : c < 128
  · rw [utf8EncodeCp, if_pos h1]
    simp only [List.cons_append, List.nil_append]
    rw [utf8DecodeLoop, if_pos h1]
  · by_cases h2 : c < 2048
    · rw [utf8EncodeCp, if_neg h1, if_pos h2]
      simp only [List.cons_append, List.nil_append]
      rw [utf8DecodeLoop, if_neg (by omega), if_neg (by omega : ¬(192 + c / 64 < 194)),
        if_pos (by omega : 192 + c / 64 < 224)]
      rw [utf8DecodeLoop, if_pos (by omega : 128 ≤ 128 + c % 64 ∧ 128 + c % 64 < 192),
        if_pos rfl]
      rw [show 192 + c / 64 - 192 = c / 64 from by omega,
        show 128 + c % 64 - 128 = c % 64 from by omega,
        show c / 64 * 64 + c % 64 = c from by omega]
      rw [if_pos (by omega : 128 ≤ c ∧ c < 1114112)]
    · by_cases h3 : c < 65536
      · rw [utf8EncodeCp, if_neg h1, if_neg h2, if_pos h3]
        simp only [List.cons_append, List.nil_append]
        rw [utf8DecodeLoop, if_neg (by omega), if_neg (by omega : ¬(224 + c / 4096 < 194)),
          if_neg (by omega : ¬(224 + c / 4096 < 224)),
          if_pos (by omega : 224 + c / 4096 < 240)]
        rw [utf8DecodeLoop,
          if_pos (by omega : 128 ≤ 128 + c / 64 % 64 ∧ 128 + c / 64 % 64 < 192),
          if_neg (by omega : ¬(2 = 1))]
        rw [utf8DecodeLoop,
          if_pos (by omega : 128 ≤ 128 + c % 64 ∧ 128 + c % 64 < 192),
          if_pos rfl]
        rw [show 224 + c / 4096 - 224 = c / 4096 from by omega,
          show 128 + c / 64 % 64 - 128 = c / 64 % 64 from by omega,
          show 128 + c % 64 - 128 = c % 64 from by omega,
          show (c / 4096 * 64 + c / 64 % 64) * 64 + c % 64 = c from by omega]
        rw [if_pos (by omega : 2048 ≤ c ∧ c < 1114112)]
      · rw [utf8EncodeCp, if_neg h1, if_neg h2, if_neg h3]
        simp only [List.cons_append, List.nil_append]
        rw [utf8DecodeLoop, if_neg (by omega), if_neg (by omega : ¬(240 + c / 262144 < 194)),
          if_neg (by omega : ¬(240 + c / 262144 < 224)),
          if_neg (by omega : ¬(240 + c / 262144 < 240)),
          if_pos (by omega : 240 + c / 262144 < 245)]
        rw [utf8DecodeLoop,
          if_pos (by omega : 128 ≤ 128 + c / 4096 % 64 ∧ 128 + c / 4096 % 64 < 192),
          if_neg (by omega : ¬(3 = 1))]
        rw [utf8DecodeLoop,
          if_pos (by omega : 128 ≤ 128 + c / 64 % 64 ∧ 128 + c / 64 % 64 < 192),
          if_neg (by omega : ¬(3 - 1 = 1))]
        rw [utf8DecodeLoop,
          if_pos (by omega : 128 ≤ 128 + c % 64 ∧ 128 + c % 64 < 192),
          if_pos rfl]
        rw [show 240 + c / 262144 - 240 = c / 262144 from by omega,
          show 128 + c / 4096 % 64 - 128 = c / 4096 % 64 from by omega,
          show 128 + c / 64 % 64 - 128 = c / 64 % 64 from by omega,
          show 128 + c % 64 - 128 = c % 64 from by omega,
          show ((c / 262144 * 64 + c / 4096 % 64) * 64 + c / 64 % 64) * 64 + c % 64 = c
            from by omega]
        rw [if_pos (by omega : 65536 ≤ c ∧ c < 1114112)]

theorem utf8Decode_encodeList (l : List Char) (rest : List Nat) :
    utf8Decode ((l.map (fun ch => utf8EncodeCp ch.toNat)).flatten ++ rest)
      = (utf8Decode rest).map (l.map Char.toNat ++ ·) := by
  induction l with
  | nil =>
    simp only [List.map_nil, List.flatten_nil, List.nil_append]
    cases utf8Decode rest <;> rfl
  | cons ch l ih =>
    simp only [List.map_cons, List.flatten_cons, List.append_assoc]
    rw [utf8Decode_encodeCp (char_toNat_lt ch), ih]
    cases utf8Decode rest <;> rfl

theorem stringOfCodepoints_map_toNat (l : List Char) :
    stringOfCodepoints? (l.map Char.toNat) = some (String.mk l) := by
  induction l with
  | nil => rfl
  | cons ch l ih =>
    simp only [List.map_cons, stringOfCodepoints?]
    rw [if_pos (show (Char.toNat ch).isValidChar from ch.valid), ih]
    simp [Char.ofNat_toNat]

theorem stringUtf8Bytes_lt_256 (s : String) : ∀ b ∈ stringUtf8Bytes s, b < 256 := by
  intro b hb
  unfold stringUtf8Bytes at hb
  simp only [List.mem_flatten, List.mem_map] at hb
  obtain ⟨bs, ⟨ch, _, rfl⟩, hmem⟩ := hb
  exact utf8EncodeCp_lt_256 (char_toNat_lt ch) b hmem

theorem percentDecode_formUrlEncode (s : String) :
    percentDecode (formUrlEncode s) = some s := by
  unfold percentDecode formUrlEncode
  have hdata : (String.mk (((stringUtf8Bytes s).map formUrlEncodeByte).flatten)).data
      = ((stringUtf8Bytes s).map formUrlEncodeByte).flatten := rfl
  rw [hdata]
  have h1 := percentDecodeBytes_encodeBytes [] (stringUtf8Bytes_lt_256 s)
  rw [List.append_nil] at h1
  rw [h1, show percentDecodeBytes [] = some [] from rfl]
  simp only [Option.map_some', List.append_nil, Option.some_bind]
  have h2 := utf8Decode_encodeList s.data []
  rw [List.append_nil] at h2
  unfold stringUtf8Bytes
  rw [h2, show utf8Decode [] = some [] from rfl]
  simp only [Option.map_some', List.append_nil, Option.some_bind]
  rw [stringOfCodepoints_map_toNat]

/-! ## Inversion lemmas for the adapters -/

theorem truthyOpt_true_iff {o : Option String} :
    truthyOpt o = true ↔ ∃ t, o = some t ∧ t ≠ "" := by
  cases o with
  | none => simp [truthyOpt]
  | some t =>
    by_cases ht : t = ""
    · subst ht
      simp only [truthyOpt]
      decide
    · have hie : t.isEmpty = false := by
        rw [← Bool.not_eq_true]
        intro hh
        exact ht ((String.isEmpty_iff t).mp hh)
      simp [truthyOpt, hie, ht]

theorem truthyOpt_false_iff {o : Option String} :
    truthyOpt o = false ↔ o = none ∨ o = some "" := by
  cases o with
  | none => simp [truthyOpt]
  | some t =>
    by_cases ht : t = ""
    · subst ht
      simp only [truthyOpt]
      decide
    · have hie : t.isEmpty = false := by
        rw [← Bool.not_eq_true]
        intro hh
        exact ht ((String.isEmpty_iff t).mp hh)
      simp [truthyOpt, hie, ht]

theorem exchange_ok_inv {r : ExchangeResponse} {s : String}
    (h : exchangeGoogleTokenForAzureSession r = .ok s) :
    r.ok = true ∧ r.authenticationToken = some s ∧ s ≠ "" := by
  unfold exchangeGoogleTokenForAzureSession at h
  split at h
  · exact absurd h (by simp)
  · split at h
    · exact absurd h (by simp)
    · rename_i h1 h2
      have hok : r.ok = true := by
        revert h1
        cases r.ok <;> simp
      have htr : truthyOpt r.authenticationToken = true := by
        revert h2
        cases truthyOpt r.authenticationToken <;> simp
      obtain ⟨t, hat, hne⟩ := truthyOpt_true_iff.mp htr
      rw [hat] at h
      simp only [Option.getD_some, Except.ok.injEq] at h
      subst h
      exact ⟨hok, hat, hne⟩

theorem hydrate_ok_inv {r : HydrationResponse} {d : DerivedIdentity}
    (h : hydrateUserData r = .ok d) :
    r.ok = true ∧ r.body.success = true
      ∧ r.body.salt = some d.salt ∧ r.body.address = some d.address
      ∧ d.salt ≠ "" ∧ d.address ≠ "" := by
  unfold hydrateUserData at h
  split at h
  · split at h <;> exact absurd h (by simp)
  · split at h
    · exact absurd h (by simp)
    · rename_i h1 h2
      have hok : r.ok = true := by
        revert h1
        cases r.ok <;> simp
      have h2' : r.body.success = true ∧ truthyOpt r.body.address = true
          ∧ truthyOpt r.body.salt = true := by
        revert h2
        cases r.body.success <;> cases truthyOpt r.body.address
          <;> cases truthyOpt r.body.salt <;> simp
      obtain ⟨hsucc', haddr', hsalt'⟩ := h2'
      obtain ⟨a, ha, hane⟩ := truthyOpt_true_iff.mp haddr'
      obtain ⟨sv, hs, hsne⟩ := truthyOpt_true_iff.mp hsalt'
      rw [ha, hs] at h
      simp only [Option.getD_some, Except.ok.injEq] at h
      subst h
      exact ⟨hok, hsucc', hs, ha, hsne, hane⟩

/-! ## The status traces a flow can produce -/

theorem statusTrace_cases (inp : FlowInput) :
    statusTrace inp = [BridgeStatus.idle, .error]
    ∨ statusTrace inp = [.idle, .idle]
    ∨ statusTrace inp = [.idle, .initializing, .error]
    ∨ statusTrace inp = [.idle, .initializing, .ready]
    ∨ statusTrace inp = [.idle, .initializing, .ready, .error]
    ∨ statusTrace inp = [.idle, .initializing, .ready, .exchanging, .error]
    ∨ statusTrace inp
        = [.idle, .initializing, .ready, .exchanging, .ejecting, .success] := by
  obtain ⟨cfg, q, sl, cr, b⟩ := inp
  rcases cfg with _ | _
  · left
    rfl
  · rcases hp : parseObsidianParams q with _ | p
    · right; left
      simp [statusTrace, fullTrace, init, initialState, hp]
    · rcases sl with _ | _
      · right; right; left
        simp [statusTrace, fullTrace, init, initializeGoogleSignIn, initialState, hp]
      · rcases cr with _ | resp
        · right; right; right; left
          simp [statusTrace, fullTrace, init, initializeGoogleSignIn, initialState, hp]
        · by_cases hcred : truthyOpt resp.credential = true
          · rcases hca : completeAuthentication b (resp.credential.getD "")
              with ⟨res, calls⟩
            rcases res with e | r
            · right; right; right; right; right; left
              simp [statusTrace, fullTrace, init, initializeGoogleSignIn,
                handleGoogleCredential, initialState, hp, hcred, hca]
            · right; right; right; right; right; right
              simp [statusTrace, fullTrace, init, initializeGoogleSignIn,
                handleGoogleCredential, initialState, hp, hcred, hca]
          · right; right; right; right; left
            rw [Bool.not_eq_true] at hcred
            simp [statusTrace, fullTrace, init, initializeGoogleSignIn,
              handleGoogleCredential, initialState, hp, hcred]

theorem parse_some_inv {q : Params} {p : ObsidianParams}
    (hp : parseObsidianParams q = some p) :
    getParam q "source" = some "obsidian"
      ∧ getParam q "nonce" = some p.nonce ∧ p.nonce ≠ "" := by
  simp only [parseObsidianParams] at hp
  by_cases hsrc : getParam q "source" ≠ some "obsidian"
  · rw [if_pos hsrc] at hp
    exact absurd hp (by simp)
  · rw [if_neg hsrc] at hp
    rcases htr : truthyOpt (getParam q "nonce") with _ | _
    · rw [htr] at hp
      rw [if_pos (by decide)] at hp
      exact absurd hp (by simp)
    · rw [htr] at hp
      rw [if_neg (by decide)] at hp
      obtain ⟨t, hat, hne⟩ := truthyOpt_true_iff.mp htr
      simp only [Option.some.injEq] at hp
      refine ⟨not_not.mp hsrc, ?_, ?_⟩
      · rw [hat, ← hp]
        simp [hat]
      · rw [← hp]
        simpa [hat] using hne

/-! ## Concrete flow fixtures -/

/-- A backend whose two RPCs both answer successfully, with the spec's
happy-path payloads. -/
def okBackend : Backend where
  exchangeResp := fun _ =>
    { ok := true, status := 200, statusText := "OK", bodyText := ""
      authenticationToken := some "sess1" }
  hydrateResp := fun _ _ =>
    { ok := true, status := 200, contentTypeJson := true
      errorMessage := none, errorText := ""
      body := { success := true, address := some "0xDEAD", salt := some "42"
                message := none } }

/-- The spec's happy-path flow: launch `?source=obsidian&nonce=abc123`,
credential `tok1`, both RPCs succeed. -/
def happyInput : FlowInput where
  configOk := true
  query := [("source", "obsidian"), ("nonce", "abc123")]
  scriptLoadOk := true
  cred := .callback { credential := some "tok1" }
  backend := okBackend

/-- A backend whose session exchange returns HTTP 401. -/
def backend401 : Backend where
  exchangeResp := fun _ =>
    { ok := false, status := 401, statusText := "Unauthorized"
      bodyText := "denied", authenticationToken := none }
  hydrateResp := fun _ _ =>
    { ok := true, status := 200, contentTypeJson := true
      errorMessage := none, errorText := ""
      body := { success := true, address := some "0xDEAD", salt := some "42"
                message := none } }

/-- The happy-path launch against the failing backend. -/
def input401 : FlowInput where
  configOk := true
  query := [("source", "obsidian"), ("nonce", "abc123")]
  scriptLoadOk := true
  cred := .callback { credential := some "tok1" }
  backend := backend401

/-- A launch with no `nonce` parameter. -/
def noNonceInput : FlowInput where
  configOk := true
  query := [("source", "obsidian")]
  scriptLoadOk := true
  cred := .noCallback
  backend := okBackend

/-! ## The claims -/

/-- C1: for every flow whose launch query parses to a valid LaunchRequest,
the nonce passed as the first argument to `googleAuthService.initialize` is
exactly the nonce string extracted from the launch query parameters — it is
never generated, substituted, or defaulted between parsing and `initialize`:
whenever `initialize` is reached it receives the parsed nonce, which is the
raw value of the `nonce` query parameter. -/
theorem initialize_nonce_is_launch_nonce (inp : FlowInput) (p : ObsidianParams)
    (hp : parseObsidianParams inp.query = some p) :
    (∀ n, (init inp).initNonce = some n →
        n = p.nonce ∧ getParam inp.query "nonce" = some n)
    ∧ (inp.configOk = true → inp.scriptLoadOk = true →
        (init inp).initNonce = some p.nonce) := by
  have hq := parse_some_inv hp
  rcases hcfg : inp.configOk with _ | _
  · constructor
    · intro n hn
      simp [init, hcfg] at hn
    · intro h
      exact absurd h (by simp)
  · rcases hsl : inp.scriptLoadOk with _ | _
    · constructor
      · intro n hn
        rcases hcr : inp.cred with _ | resp <;>
          simp [init, initializeGoogleSignIn, hcfg, hsl, hp] at hn
      · intro _ h
        exact absurd h (by simp)
    · have hnonce : (init inp).initNonce = some p.nonce := by
        rcases hcr : inp.cred with _ | resp
        · simp [init, initializeGoogleSignIn, hcfg, hsl, hp, hcr]
        · rcases hhc : handleGoogleCredential inp.backend resp with ⟨credStates, calls⟩
          simp [init, initializeGoogleSignIn, hcfg, hsl, hp, hcr, hhc]
      constructor
      · intro n hn
        rw [hnonce] at hn
        simp only [Option.some.injEq] at hn
        subst hn
        exact ⟨rfl, hq.2.1⟩
      · intro _ _
        exact hnonce

/-- Witness for C1 at the spec's happy-path launch. -/
theorem initialize_nonce_is_launch_nonce_witness :
    (init happyInput).initNonce = some "abc123"
      ∧ getParam happyInput.query "nonce" = some "abc123" := by
  have h := initialize_nonce_is_launch_nonce happyInput
    { nonce := "abc123", redirect := false, prompt := none } (by decide)
  have hn : (init happyInput).initNonce = some "abc123" := h.2 rfl rfl
  exact ⟨hn, (h.1 "abc123" hn).2⟩

/-- C2 counterexample: the spec's happy-path flow ends in `success` without
ever entering the `authenticating` or `hydrating` status, refuting the claim
that every successful run passes through both. -/
theorem successful_run_skips_authenticating :
    statusTrace happyInput
        = [.idle, .initializing, .ready, .exchanging, .ejecting, .success]
      ∧ BridgeStatus.success ∈ statusTrace happyInput
      ∧ BridgeStatus.authenticating ∉ statusTrace happyInput
      ∧ BridgeStatus.hydrating ∉ statusTrace happyInput := by
  decide

/-- C2 (amended): every flow's status trace is nondecreasing in the declared
order `idle → initializing → ready → exchanging → ejecting → success`, with
`error` (the maximal status) as the only failure exit, occurring only as the
final status of a run; the statuses `authenticating` and `hydrating` never
occur; and every run reaching `success` passes through `initializing`,
`ready`, `exchanging` and `ejecting`. -/
theorem statusTrace_forward_order (inp : FlowInput) :
    (∀ pair ∈ (statusTrace inp).zip (statusTrace inp).tail,
        BridgeStatus.idx pair.1 ≤ BridgeStatus.idx pair.2)
    ∧ BridgeStatus.authenticating ∉ statusTrace inp
    ∧ BridgeStatus.hydrating ∉ statusTrace inp
    ∧ (BridgeStatus.error ∈ statusTrace inp →
        (statusTrace inp).getLast? = some .error
          ∧ (statusTrace inp).count .error = 1)
    ∧ (BridgeStatus.success ∈ statusTrace inp →
        BridgeStatus.initializing ∈ statusTrace inp
        ∧ BridgeStatus.ready ∈ statusTrace inp
        ∧ BridgeStatus.exchanging ∈ statusTrace inp
        ∧ BridgeStatus.ejecting ∈ statusTrace inp) := by
  rcases statusTrace_cases inp with h | h | h | h | h | h | h <;> rw [h] <;> decide

/-- Witness for C2's amended theorem on a run that fails at the exchange. -/
theorem statusTrace_forward_order_witness :
    (statusTrace input401).getLast? = some .error
      ∧ (statusTrace input401).count .error = 1 := by
  exact (statusTrace_forward_order input401).2.2.2.1 (by decide)

/-- C3: `parseObsidianParams` returns null (never throws: it is a total
function into an `Option`) whenever `source` is absent or differs from the
literal `"obsidian"`, or `nonce` is absent or empty; and in every flow whose
query it rejects, every UI state of the run has status `idle` (a waiting
display state, not an error state), no backend call is made, and
`initialize` is never reached. -/
theorem invalid_params_idle (inp : FlowInput) (hcfg : inp.configOk = true) :
    ((getParam inp.query "source" ≠ some "obsidian"
        ∨ truthyOpt (getParam inp.query "nonce") = false) →
      parseObsidianParams inp.query = none)
    ∧ (parseObsidianParams inp.query = none →
        (∀ st ∈ fullTrace inp, st.status = .idle)
        ∧ (init inp).calls = [] ∧ (init inp).initNonce = none) := by
  constructor
  · intro h
    simp only [parseObsidianParams]
    rcases h with h | h
    · rw [if_pos h]
    · by_cases hsrc : getParam inp.query "source" ≠ some "obsidian"
      · rw [if_pos hsrc]
      · rw [if_neg hsrc, h]
        rw [if_pos (by decide)]
  · intro hp
    refine ⟨?_, ?_, ?_⟩
    · intro st hst
      simp only [fullTrace, init, hcfg, Bool.not_true, Bool.false_eq_true,
        if_false, hp, List.mem_cons, List.mem_singleton, List.not_mem_nil,
        or_false] at hst
      rcases hst with rfl | rfl <;> rfl
    · simp [init, hcfg, hp]
    · simp [init, hcfg, hp]

/-- Witness for C3 at a launch with no `nonce` parameter. -/
theorem invalid_params_idle_witness :
    parseObsidianParams noNonceInput.query = none
      ∧ (∀ st ∈ fullTrace noNonceInput, st.status = .idle)
      ∧ (init noNonceInput).calls = [] := by
  have h := invalid_params_idle noNonceInput rfl
  have hn : parseObsidianParams noNonceInput.query = none :=
    h.1 (Or.inr (by decide))
  exact ⟨hn, (h.2 hn).1, (h.2 hn).2.1⟩

theorem exchange_spec (resp : ExchangeResponse) :
    exchangeGoogleTokenForAzureSession resp
      = if resp.ok = false then
          .error ("Azure Easy Auth login failed: HTTP " ++ Nat.repr resp.status
            ++ " - " ++ resp.statusText)
        else if truthyOpt resp.authenticationToken = false then
          .error "No authenticationToken in Azure Easy Auth response"
        else .ok (resp.authenticationToken.getD "") := by
  unfold exchangeGoogleTokenForAzureSession
  cases resp.ok <;> cases htr : truthyOpt resp.authenticationToken <;> simp [htr]

theorem hydrate_spec (resp : HydrationResponse) :
    hydrateUserData resp
      = if resp.ok = false then
          if resp.contentTypeJson then
            .error ((resp.errorMessage.filter (fun m => !m.isEmpty)).getD
              ("HTTP " ++ Nat.repr resp.status))
          else
            .error ("HTTP " ++ Nat.repr resp.status ++ ": "
              ++ resp.errorText.take 200)
        else if resp.body.success = false ∨ truthyOpt resp.body.address = false
            ∨ truthyOpt resp.body.salt = false then
          .error ((resp.body.message.filter (fun m => !m.isEmpty)).getD
            "Invalid response from bridge service")
        else .ok { address := resp.body.address.getD ""
                   salt := resp.body.salt.getD "" } := by
  unfold hydrateUserData
  cases resp.ok <;> cases resp.body.success
    <;> cases ha : truthyOpt resp.body.address
    <;> cases hs : truthyOpt resp.body.salt <;> simp [ha, hs]

/-- C4: `hydrateUserData` is never invoked before
`exchangeGoogleTokenForAzureSession` has returned successfully in the same
flow: whenever a hydrate call was issued, the exchange succeeded and the
session token passed to hydration is exactly the exchange's return value;
the two backend calls are strictly sequential (either the exchange alone, or
the exchange followed by one hydrate call); and if the exchange fails, the
flow's result is that error and hydration is never called. -/
theorem hydration_only_after_exchange (b : Backend) (tok : String) :
    (∀ j s, BackendCall.hydrate j s ∈ (completeAuthentication b tok).2 →
        exchangeGoogleTokenForAzureSession (b.exchangeResp tok) = .ok s ∧ j = tok)
    ∧ ((completeAuthentication b tok).2 = [.exchange tok]
        ∨ ∃ s, exchangeGoogleTokenForAzureSession (b.exchangeResp tok) = .ok s
            ∧ (completeAuthentication b tok).2 = [.exchange tok, .hydrate tok s])
    ∧ (∀ e, exchangeGoogleTokenForAzureSession (b.exchangeResp tok) = .error e →
        (completeAuthentication b tok).1 = .error e
          ∧ ∀ j s, BackendCall.hydrate j s ∉ (completeAuthentication b tok).2) := by
  rcases hex : exchangeGoogleTokenForAzureSession (b.exchangeResp tok) with e | s
  · refine ⟨?_, ?_, ?_⟩
    · intro j s hmem
      simp [completeAuthentication, hex] at hmem
    · left
      simp [completeAuthentication, hex]
    · intro e' he'
      simp only [Except.error.injEq] at he'
      subst he'
      exact ⟨by simp [completeAuthentication, hex],
        fun j s => by simp [completeAuthentication, hex]⟩
  · rcases hhy : hydrateUserData (b.hydrateResp tok s) with e | d
    · refine ⟨?_, ?_, ?_⟩
      · intro j s' hmem
        simp [completeAuthentication, hex, hhy] at hmem
        exact ⟨by rw [hmem.2], hmem.1⟩
      · right
        exact ⟨s, rfl, by simp [completeAuthentication, hex, hhy]⟩
      · intro e' he'
        exact absurd he' (by simp)
    · refine ⟨?_, ?_, ?_⟩
      · intro j s' hmem
        simp [completeAuthentication, hex, hhy] at hmem
        exact ⟨by rw [hmem.2], hmem.1⟩
      · right
        exact ⟨s, rfl, by simp [completeAuthentication, hex, hhy]⟩
      · intro e' he'
        exact absurd he' (by simp)

/-- Witness for C4: against a backend whose exchange returns HTTP 401, the
flow result is the exchange error and hydration is never called. -/
theorem hydration_only_after_exchange_witness :
    (completeAuthentication backend401 "tok1").1
        = .error "Azure Easy Auth login failed: HTTP 401 - Unauthorized"
      ∧ ∀ j s, BackendCall.hydrate j s ∉ (completeAuthentication backend401 "tok1").2 := by
  exact (hydration_only_after_exchange backend401 "tok1").2.2
    "Azure Easy Auth login failed: HTTP 401 - Unauthorized" (by rfl)

/-- A 401 exchange response carrying a distinctive body text. -/
def resp401 : ExchangeResponse :=
  { ok := false, status := 401, statusText := "Unauthorized"
    bodyText := "BODY-DETAIL", authenticationToken := some "tok" }

/-- C5 counterexample: for a 401 response the thrown failure message carries
the status code and status text but not the response body, refuting "the
failure carrying the status code and body". -/
theorem exchange_failure_omits_body :
    exchangeGoogleTokenForAzureSession resp401
        = .error "Azure Easy Auth login failed: HTTP 401 - Unauthorized"
      ∧ "401".data <:+: "Azure Easy Auth login failed: HTTP 401 - Unauthorized".data
      ∧ ¬ resp401.bodyText.data
          <:+: "Azure Easy Auth login failed: HTTP 401 - Unauthorized".data := by
  refine ⟨by rfl, by decide, by decide⟩

/-- C5 (amended): `exchangeGoogleTokenForAzureSession` fails exactly when the
HTTP response has a non-success status — the failure carrying the status code
and status text (not the body) — or when a success response lacks a non-empty
`authenticationToken` (a 200 with the field missing or empty is still an
error); on success it returns the `authenticationToken` field of the body. -/
theorem exchange_fails_iff (resp : ExchangeResponse) :
    ((∃ e, exchangeGoogleTokenForAzureSession resp = .error e)
        ↔ (resp.ok = false ∨ resp.authenticationToken = none
            ∨ resp.authenticationToken = some ""))
    ∧ (resp.ok = false →
        exchangeGoogleTokenForAzureSession resp
          = .error ("Azure Easy Auth login failed: HTTP " ++ Nat.repr resp.status
              ++ " - " ++ resp.statusText))
    ∧ (∀ t, resp.ok = true → resp.authenticationToken = some t → t ≠ "" →
        exchangeGoogleTokenForAzureSession resp = .ok t) := by
  refine ⟨⟨?_, ?_⟩, ?_, ?_⟩
  · rintro ⟨e, he⟩
    rw [exchange_spec] at he
    by_cases hok : resp.ok = false
    · exact Or.inl hok
    · rw [if_neg hok] at he
      by_cases htr : truthyOpt resp.authenticationToken = false
      · exact Or.inr (truthyOpt_false_iff.mp htr)
      · rw [if_neg htr] at he
        exact absurd he (by simp)
  · intro h
    rw [exchange_spec]
    rcases h with h | h | h
    · rw [if_pos h]
      exact ⟨_, rfl⟩
    · by_cases hok : resp.ok = false
      · rw [if_pos hok]
        exact ⟨_, rfl⟩
      · rw [if_neg hok, if_pos (truthyOpt_false_iff.mpr (Or.inl h))]
        exact ⟨_, rfl⟩
    · by_cases hok : resp.ok = false
      · rw [if_pos hok]
        exact ⟨_, rfl⟩
      · rw [if_neg hok, if_pos (truthyOpt_false_iff.mpr (Or.inr h))]
        exact ⟨_, rfl⟩
  · intro hok
    rw [exchange_spec, if_pos hok]
  · intro t hok hat ht
    have htr : truthyOpt resp.authenticationToken = true :=
      truthyOpt_true_iff.mpr ⟨t, hat, ht⟩
    rw [exchange_spec, if_neg (by rw [hok]; simp), if_neg (by rw [htr]; simp), hat]
    rfl

/-- A 200 exchange response carrying a session token. -/
def okExchangeResp : ExchangeResponse :=
  { ok := true, status := 200, statusText := "OK", bodyText := ""
    authenticationToken := some "sess1" }

/-- Witness for C5's amended theorem on a successful exchange response. -/
theorem exchange_fails_iff_witness :
    exchangeGoogleTokenForAzureSession okExchangeResp = .ok "sess1" := by
  exact (exchange_fails_iff okExchangeResp).2.2 "sess1" rfl rfl (by decide)

/-- C6: on an HTTP-success response, `hydrateUserData` fails whenever the
body lacks any of `success == true`, `salt`, or `address`; and whenever it
succeeds it returns exactly the body's salt and address together — never a
partial DerivedIdentity. -/
theorem hydrate_all_or_nothing (resp : HydrationResponse) (hok : resp.ok = true) :
    ((resp.body.success = false ∨ resp.body.salt = none
        ∨ resp.body.address = none) →
      ∃ e, hydrateUserData resp = .error e)
    ∧ (∀ d, hydrateUserData resp = .ok d →
        resp.body.success = true ∧ resp.body.salt = some d.salt
          ∧ resp.body.address = some d.address) := by
  constructor
  · intro h
    rw [hydrate_spec, if_neg (by rw [hok]; simp)]
    have hb : resp.body.success = false ∨ truthyOpt resp.body.address = false
        ∨ truthyOpt resp.body.salt = false := by
      rcases h with h | h | h
      · exact Or.inl h
      · exact Or.inr (Or.inr (truthyOpt_false_iff.mpr (Or.inl h)))
      · exact Or.inr (Or.inl (truthyOpt_false_iff.mpr (Or.inl h)))
    rw [if_pos hb]
    exact ⟨_, rfl⟩
  · intro d hd
    have hinv := hydrate_ok_inv hd
    exact ⟨hinv.2.1, hinv.2.2.1, hinv.2.2.2.1⟩

/-- A 200 hydration response with a complete body. -/
def okHydrationResp : HydrationResponse :=
  { ok := true, status := 200, contentTypeJson := true
    errorMessage := none, errorText := ""
    body := { success := true, address := some "0xDEAD", salt := some "42"
              message := none } }

/-- A 200 hydration response whose body lacks `salt`. -/
def hydrationRespMissingSalt : HydrationResponse :=
  { ok := true, status := 200, contentTypeJson := true
    errorMessage := none, errorText := ""
    body := { success := true, address := some "0xDEAD", salt := none
              message := none } }

/-- Witness for C6 on a salt-less 200 response and on a complete one. -/
theorem hydrate_all_or_nothing_witness :
    (∃ e, hydrateUserData hydrationRespMissingSalt = .error e)
      ∧ okHydrationResp.body.success = true
      ∧ okHydrationResp.body.salt = some "42"
      ∧ okHydrationResp.body.address = some "0xDEAD" := by
  exact ⟨(hydrate_all_or_nothing hydrationRespMissingSalt rfl).1
      (Or.inr (Or.inl rfl)),
    (hydrate_all_or_nothing okHydrationResp rfl).2
      { salt := "42", address := "0xDEAD" } (by rfl)⟩

/-- C7: the transition into `exchanging` fires only when the identity
provider's callback delivers a non-empty credential; an empty or absent
credential produces exactly the error state ("authentication failed") with
no backend call, and the handler never sets `ready` again — the machine
never returns to `ready` automatically. -/
theorem exchanging_requires_nonempty_credential (b : Backend)
    (resp : GoogleCredentialResponse) :
    (truthyOpt resp.credential = false →
      (handleGoogleCredential b resp).1
        = [{ status := .error, message := "Authentication failed"
             error := some "No credential received from Google", data := none }]
        ∧ (handleGoogleCredential b resp).2 = [])
    ∧ (∀ st ∈ (handleGoogleCredential b resp).1, st.status = .exchanging →
        truthyOpt resp.credential = true)
    ∧ (∀ st ∈ (handleGoogleCredential b resp).1, st.status ≠ .ready) := by
  by_cases hcred : truthyOpt resp.credential = true
  · refine ⟨fun h => absurd hcred (by rw [h]; simp), fun _ _ _ => hcred, ?_⟩
    intro st hst
    rcases hca : completeAuthentication b (resp.credential.getD "")
      with ⟨res, calls⟩
    rcases res with e | r <;>
      simp [handleGoogleCredential, hcred, hca] at hst <;>
      rcases hst with rfl | rfl | rfl <;> simp
  · have hcred' : truthyOpt resp.credential = false := by
      revert hcred
      cases truthyOpt resp.credential <;> simp
    refine ⟨fun _ => ?_, ?_, ?_⟩
    · constructor <;> simp [handleGoogleCredential, hcred']
    · intro st hst hex
      simp [handleGoogleCredential, hcred'] at hst
      rw [hst] at hex
      exact absurd hex (by simp)
    · intro st hst
      simp [handleGoogleCredential, hcred'] at hst
      rw [hst]
      simp

/-- A callback response with an empty credential. -/
def emptyCredResponse : GoogleCredentialResponse := { credential := some "" }

/-- Witness for C7 at an empty-credential callback. -/
theorem exchanging_requires_nonempty_credential_witness :
    (handleGoogleCredential okBackend emptyCredResponse).1
      = [{ status := .error, message := "Authentication failed"
           error := some "No credential received from Google", data := none }] := by
  exact ((exchanging_requires_nonempty_credential okBackend emptyCredResponse).1
    (by decide)).1

/-- C9: whenever either backend RPC yields a non-2xx or field-incomplete
response, the credential handler ends in the `error` state and none of the
states it sets carries data — no partial AuthenticationResult is ever stored
in the UI state. -/
theorem backend_failure_leaves_data_undefined (b : Backend)
    (resp : GoogleCredentialResponse) (cred : String)
    (hcred : resp.credential = some cred) (hne : cred ≠ "")
    (hbad : (b.exchangeResp cred).ok = false
        ∨ (b.exchangeResp cred).authenticationToken = none
        ∨ (b.exchangeResp cred).authenticationToken = some ""
        ∨ ∀ s, exchangeGoogleTokenForAzureSession (b.exchangeResp cred) = .ok s →
            ((b.hydrateResp cred s).ok = false
              ∨ (b.hydrateResp cred s).body.success = false
              ∨ (b.hydrateResp cred s).body.salt = none
              ∨ (b.hydrateResp cred s).body.salt = some ""
              ∨ (b.hydrateResp cred s).body.address = none
              ∨ (b.hydrateResp cred s).body.address = some "")) :
    ((handleGoogleCredential b resp).1.getLast?).map (fun st => st.status)
        = some .error
      ∧ ∀ st ∈ (handleGoogleCredential b resp).1, st.data = none := by
  have hcredT : truthyOpt resp.credential = true :=
    truthyOpt_true_iff.mpr ⟨cred, hcred, hne⟩
  have hgetD : resp.credential.getD "" = cred := by
    rw [hcred]
    rfl
  rcases hca : completeAuthentication b cred with ⟨res, calls⟩
  rcases res with e | r
  · constructor
    · simp [handleGoogleCredential, hcredT, hgetD, hca]
    · intro st hst
      simp [handleGoogleCredential, hcredT, hgetD, hca] at hst
      rcases hst with rfl | rfl <;> rfl
  · exfalso
    rcases hex : exchangeGoogleTokenForAzureSession (b.exchangeResp cred) with e | s
    · simp [completeAuthentication, hex] at hca
    · rcases hhy : hydrateUserData (b.hydrateResp cred s) with e | d
      · simp [completeAuthentication, hex, hhy] at hca
      · have hexinv := exchange_ok_inv hex
        have hhyinv := hydrate_ok_inv hhy
        rcases hbad with h | h | h | h
        · rw [hexinv.1] at h
          exact absurd h (by simp)
        · rw [hexinv.2.1] at h
          exact absurd h (by simp)
        · rw [hexinv.2.1] at h
          simp only [Option.some.injEq] at h
          exact hexinv.2.2 h
        · rcases h s hex with h' | h' | h' | h' | h' | h'
          · rw [hhyinv.1] at h'
            exact absurd h' (by simp)
          · rw [hhyinv.2.1] at h'
            exact absurd h' (by simp)
          · rw [hhyinv.2.2.1] at h'
            exact absurd h' (by simp)
          · rw [hhyinv.2.2.1] at h'
            simp only [Option.some.injEq] at h'
            exact hhyinv.2.2.2.2.1 h'
          · rw [hhyinv.2.2.2.1] at h'
            exact absurd h' (by simp)
          · rw [hhyinv.2.2.2.1] at h'
            simp only [Option.some.injEq] at h'
            exact hhyinv.2.2.2.2.2 h'

/-- Witness for C9 against the 401 backend. -/
theorem backend_failure_leaves_data_undefined_witness :
    ((handleGoogleCredential backend401 { credential := some "tok1" }).1.getLast?).map
        (fun st => st.status) = some .error
      ∧ ∀ st ∈ (handleGoogleCredential backend401 { credential := some "tok1" }).1,
          st.data = none := by
  exact backend_failure_leaves_data_undefined backend401
    { credential := some "tok1" } "tok1" rfl (by decide) (Or.inl rfl)

/-- C10: both adapters reject empty-string required response fields, not
only absent ones: a 2xx session-exchange response whose
`authenticationToken` is the empty string fails, and a 2xx hydration
response whose `success` is false or whose `salt` or `address` is the empty
string fails. -/
theorem empty_required_fields_rejected (er : ExchangeResponse)
    (hr : HydrationResponse) :
    (er.ok = true → er.authenticationToken = some "" →
      ∃ e, exchangeGoogleTokenForAzureSession er = .error e)
    ∧ (hr.ok = true →
        (hr.body.success = false ∨ hr.body.salt = some ""
          ∨ hr.body.address = some "") →
        ∃ e, hydrateUserData hr = .error e) := by
  constructor
  · intro hok hat
    rw [exchange_spec, if_neg (by rw [hok]; simp),
      if_pos (truthyOpt_false_iff.mpr (Or.inr hat))]
    exact ⟨_, rfl⟩
  · intro hok h
    rw [hydrate_spec, if_neg (by rw [hok]; simp)]
    have hb : hr.body.success = false ∨ truthyOpt hr.body.address = false
        ∨ truthyOpt hr.body.salt = false := by
      rcases h with h | h | h
      · exact Or.inl h
      · exact Or.inr (Or.inr (truthyOpt_false_iff.mpr (Or.inr h)))
      · exact Or.inr (Or.inl (truthyOpt_false_iff.mpr (Or.inr h)))
    rw [if_pos hb]
    exact ⟨_, rfl⟩

/-- A 200 exchange response with an empty session token. -/
def exchangeRespEmptyToken : ExchangeResponse :=
  { ok := true, status := 200, statusText := "OK", bodyText := ""
    authenticationToken := some "" }

/-- A 200 hydration response whose `salt` is the empty string. -/
def hydrationRespEmptySalt : HydrationResponse :=
  { ok := true, status := 200, contentTypeJson := true
    errorMessage := none, errorText := ""
    body := { success := true, address := some "0xDEAD", salt := some ""
              message := none } }

/-- Witness for C10 on empty-string required fields. -/
theorem empty_required_fields_rejected_witness :
    (∃ e, exchangeGoogleTokenForAzureSession exchangeRespEmptyToken = .error e)
      ∧ ∃ e, hydrateUserData hydrationRespEmptySalt = .error e := by
  exact ⟨(empty_required_fields_rejected exchangeRespEmptyToken
      hydrationRespEmptySalt).1 rfl rfl,
    (empty_required_fields_rejected exchangeRespEmptyToken
      hydrationRespEmptySalt).2 rfl (Or.inr (Or.inl rfl))⟩

/-- C8: for arbitrary `jwt`, `azureToken`, `salt`, `address`,
`buildDeeplink` produces the fixed-scheme URL whose four query-field values
are the form-urlencoded encodings of the four strings, and percent-decoding
each of those four values yields back the original strings exactly — in
particular for values containing `&`, `=`, `%`, spaces and Unicode. -/
theorem deeplink_roundtrip (jwt azureToken salt address : String) :
    buildDeeplink
        { jwt := jwt, azureToken := azureToken, salt := salt, address := address }
      = "obsidian://enoki-auth?jwt=" ++ formUrlEncode jwt
        ++ "&azure_token=" ++ formUrlEncode azureToken
        ++ "&salt=" ++ formUrlEncode salt
        ++ "&address=" ++ formUrlEncode address
    ∧ percentDecode (formUrlEncode jwt) = some jwt
    ∧ percentDecode (formUrlEncode azureToken) = some azureToken
    ∧ percentDecode (formUrlEncode salt) = some salt
    ∧ percentDecode (formUrlEncode address) = some address := by
  refine ⟨?_, percentDecode_formUrlEncode jwt,
    percentDecode_formUrlEncode azureToken,
    percentDecode_formUrlEncode salt, percentDecode_formUrlEncode address⟩
  apply String.ext
  simp only [buildDeeplink, urlSearchParamsToString, deeplinkProtocol,
    deeplinkCallback,
    (show formUrlEncode "jwt" = "jwt" from by decide),
    (show formUrlEncode "azure_token" = "azure_token" from by decide),
    (show formUrlEncode "salt" = "salt" from by decide),
    (show formUrlEncode "address" = "address" from by decide),
    String.data_append, List.append_assoc]
  simp only [List.cons_append, List.nil_append, List.append_assoc]

end LoginBridge
